import Mathlib

/-!
Shallow embedding of `src/sb3/train_ppo.py`: the CLI configuration
resolution (click decorators), environment construction, algorithm
variant dispatch, evaluation-callback construction, learning-rate
schedule, output-path layout, and the effect trace of the `train`
orchestration routine.
-/

namespace TrainPPO

/- Defaults class of `train_ppo.py` (lines 25-32). -/
namespace Defaults

def TOTAL_TIMESTEPS : Int := 1500000

def EVAL_FREQ : Int := 10000

def EVAL_EPISODES : Int := 10

def SEED : Int := 42

def ENTROPY_COEF : ℚ := 1 / 100

end Defaults

/-- Module-level hyperparameter `gamma = 0.99` (line 35). -/
def gamma : ℚ := 99 / 100

/-- Module-level hyperparameter `gae_lambda = 0.95` (line 36). -/
def gae_lambda : ℚ := 95 / 100

/-- Module-level hyperparameter `clip_coef = 0.1` (line 37). -/
def clip_coef : ℚ := 1 / 10

/-- Module-level hyperparameter `max_grad_norm = 0.5` (line 38). -/
def max_grad_norm : ℚ := 1 / 2

/-- Module-level hyperparameter `learning_rate = 2.5e-4` (line 39). -/
def learning_rate : ℚ := 25 / 100000

/-- An underlying gym environment instance, as far as the masking adapter
is concerned: it carries an `action_mask` attribute (a boolean vector over
the discrete action space). -/
structure RawEnv where
  action_mask : List Bool
deriving DecidableEq

/-- `mask_fn(env)` (lines 42-45): returns `env.action_mask`. -/
def mask_fn (env : RawEnv) : List Bool := env.action_mask

/-- The `ActionMasker` wrapper from sb3_contrib: stores the wrapped
environment and the mask function; all other operations pass through. -/
structure ActionMasker where
  env : RawEnv
  action_mask_fn : RawEnv → List Bool

/-- `get_wrapper(env)` (lines 48-49): wraps `env` in
`ActionMasker(env, mask_fn)`. -/
def get_wrapper (env : RawEnv) : ActionMasker :=
  { env := env, action_mask_fn := mask_fn }

/-- The per-step mask the `ActionMasker` adapter exposes: the mask
function applied to the wrapped instance at the time of the call. -/
def ActionMasker.action_masks (w : ActionMasker) : List Bool :=
  w.action_mask_fn w.env

/-- The resolved run configuration: click-parsed arguments and options of
the `train` command (lines 53-110). -/
structure Config where
  output_folder : String
  map_size : String
  load_path : Option String
  seed : Int
  total_timesteps : Int
  eval_freq : Int
  eval_episodes : Int
  torch_deterministic : Bool
  entropy_coef : ℚ
  mask : Bool
  use_wandb : Bool
deriving DecidableEq

/-- Raw CLI input to the `train` command: the two positional arguments and
each option either supplied or absent (in which case click substitutes the
declared default). -/
structure RawArgs where
  output_folder : String
  map_size : String
  load_path : Option String := none
  seed : Option Int := none
  total_timesteps : Option Int := none
  eval_freq : Option Int := none
  eval_episodes : Option Int := none
  torch_deterministic : Option Bool := none
  entropy_coef : Option ℚ := none
  mask : Option Bool := none
  use_wandb : Option Bool := none
deriving DecidableEq

/-- Parse-time failure: click's `UsageError` for an argument outside its
declared `Choice`, surfaced in the spec as `InvalidArgument`. -/
inductive ParseError
  | InvalidArgument
deriving DecidableEq

/-- The closed enumeration of supported map sizes:
`click.Choice(["4", "10"])` (line 55). -/
def mapSizeChoices : List String := ["4", "10"]

/-- Configuration resolution as click performs it for the decorators on
lines 53-97: the `map_size` argument is validated against
`click.Choice(["4", "10"])`; every other option is typed (`int`, `float`,
flag) with a declared default and no further validation. -/
def resolveConfig (raw : RawArgs) : Except ParseError Config :=
  if raw.map_size ∈ mapSizeChoices then
    .ok
      { output_folder := raw.output_folder
        map_size := raw.map_size
        load_path := raw.load_path
        seed := raw.seed.getD Defaults.SEED
        total_timesteps := raw.total_timesteps.getD Defaults.TOTAL_TIMESTEPS
        eval_freq := raw.eval_freq.getD Defaults.EVAL_FREQ
        eval_episodes := raw.eval_episodes.getD Defaults.EVAL_EPISODES
        torch_deterministic := raw.torch_deterministic.getD true
        entropy_coef := raw.entropy_coef.getD Defaults.ENTROPY_COEF
        mask := raw.mask.getD false
        use_wandb := raw.use_wandb.getD false }
  else .error .InvalidArgument

/-- The wrapper class passed to `make_vec_env`; the source only ever
passes `get_wrapper`. -/
inductive WrapperClass
  | getWrapper
deriving DecidableEq

/-- What `make_vec_env` followed by `VecNormalize` produces, at the level
of configuration: task id, instance count, per-instance wrapper class, and
the normalizer's settings (`norm_obs` and `training` default to true in
VecNormalize; the source passes `norm_reward=False` to both vectors and
`training=False` to the evaluation vector). -/
structure VecEnvSpec where
  env_id : String
  n_envs : Nat
  wrapper_class : Option WrapperClass
  norm_obs : Bool
  norm_reward : Bool
  norm_training : Bool
deriving DecidableEq

/-- `map_dims = f"{map_size}x{map_size}"` (line 120). -/
def map_dims (map_size : String) : String := map_size ++ "x" ++ map_size

/-- `env_id = f"MicrortsMining{map_dims}F9-v0"` (line 142). -/
def env_id_of (map_size : String) : String :=
  "MicrortsMining" ++ map_dims map_size ++ "F9-v0"

/-- `n_envs = 16` (line 143). -/
def n_envs : Nat := 16

/-- Training vector construction (lines 144-145):
`make_vec_env(env_id, n_envs=n_envs, wrapper_class=get_wrapper)` then
`VecNormalize(env, norm_reward=False)`. -/
def buildTrainEnv (cfg : Config) : VecEnvSpec :=
  { env_id := env_id_of cfg.map_size
    n_envs := n_envs
    wrapper_class := some .getWrapper
    norm_obs := true
    norm_reward := false
    norm_training := true }

/-- Evaluation vector construction (lines 148-149):
`make_vec_env(env_id, n_envs=10, wrapper_class=get_wrapper)` then
`VecNormalize(eval_env, training=False, norm_reward=False)`. -/
def buildEvalEnv (cfg : Config) : VecEnvSpec :=
  { env_id := env_id_of cfg.map_size
    n_envs := 10
    wrapper_class := some .getWrapper
    norm_obs := true
    norm_reward := false
    norm_training := false }

/-- The two agent classes the source imports and dispatches between. -/
inductive AlgClass
  | PPO
  | MaskablePPO
deriving DecidableEq

/-- The two evaluation-callback classes the source imports and dispatches
between. -/
inductive EvalCallbackClass
  | EvalCallback
  | MaskableEvalCallback
deriving DecidableEq

/-- Whether an agent class is mask-aware (spec-side predicate). -/
def AlgClass.maskAware : AlgClass → Bool
  | .PPO => false
  | .MaskablePPO => true

/-- Whether an evaluation-callback class is mask-aware (spec-side
predicate). -/
def EvalCallbackClass.maskAware : EvalCallbackClass → Bool
  | .EvalCallback => false
  | .MaskableEvalCallback => true

/-- Algorithm variant dispatch (lines 151-156): on `mask`, `Alg` and
`EvalCallbackCls` are assigned together in one branch. -/
def selectVariant (mask : Bool) : AlgClass × EvalCallbackClass :=
  if mask then (.MaskablePPO, .MaskableEvalCallback)
  else (.PPO, .EvalCallback)

/-- The evaluation callback as constructed on lines 158-160. -/
structure EvalCallbackSpec where
  cls : EvalCallbackClass
  eval_freq : Int
  n_eval_episodes : Int
deriving DecidableEq

/-- `EvalCallbackCls(eval_env, eval_freq=max(eval_freq // n_envs, 1),
n_eval_episodes=eval_episodes)` (lines 158-160). Python `//` is floor
division, embedded as `Int.fdiv`. -/
def buildEvalCallback (cfg : Config) : EvalCallbackSpec :=
  { cls := (selectVariant cfg.mask).2
    eval_freq := max (Int.fdiv cfg.eval_freq (n_envs : Int)) 1
    n_eval_episodes := cfg.eval_episodes }

/-- The learning-rate schedule
`lr = lambda progress_remaining: progress_remaining * learning_rate`
(line 162). -/
def lr (progress_remaining : ℚ) : ℚ := progress_remaining * learning_rate

/-- `base_output = Path(output_folder) / map_dims` (line 121), rendered as
a path string. -/
def base_output (output_folder map_size : String) : String :=
  output_folder ++ "/" ++ map_dims map_size

/-- Final checkpoint destination:
`model.save(str(base_output / f"models/{timestring}"))` (line 210). -/
def modelSavePath (cfg : Config) (timestring : String) : String :=
  base_output cfg.output_folder cfg.map_size ++ "/" ++ ("models/" ++ timestring)

/-- The `tensorboard_log` setting of the agent the run trains with: the
fresh-construction branch (line 188) passes
`str(base_output / f"runs/{timestring}")`, while the `Alg.load` branch
(line 165) passes no `tensorboard_log` argument at all. -/
def tensorboardLogOf (cfg : Config) (timestring : String) : Option String :=
  match cfg.load_path with
  | some _ => none
  | none =>
    some (base_output cfg.output_folder cfg.map_size ++ "/" ++ ("runs/" ++ timestring))

/-- Observable resource/side effects of the `train` body, in program
order. -/
inductive Event
  | wandbInit
  | makeTrainEnv
  | makeEvalEnv
  | loadModel
  | buildModel
  | learn
  | saveModel
  | closeTrainEnv
  | closeEvalEnv
deriving DecidableEq, BEq

/-- How the blocking `model.learn` call ends: natural completion, an
uncaught error, or a cooperative interrupt. -/
inductive LearnOutcome
  | completed
  | errored
  | interrupted
deriving DecidableEq

/-- Effect trace of the `train` body (lines 111-211) given how the
`model.learn` call ends. The body has no try/finally: an error or
interrupt raised out of `model.learn` propagates, so the statements after
it (`model.save` on line 210, `env.close()` on line 211) do not run.
`eval_env.close()` appears nowhere in the source. -/
def trainEvents (cfg : Config) (o : LearnOutcome) : List Event :=
  (if cfg.use_wandb then [.wandbInit] else [])
    ++ [.makeTrainEnv, .makeEvalEnv]
    ++ [if cfg.load_path.isSome then .loadModel else .buildModel]
    ++ [.learn]
    ++ (match o with
        | .completed => [.saveModel, .closeTrainEnv]
        | .errored => []
        | .interrupted => [])

/-- The command entry point: click resolves the configuration first; only
on success does the `train` body run (and produce effects). -/
def main (raw : RawArgs) (o : LearnOutcome) : Except ParseError (List Event) :=
  (resolveConfig raw).map fun cfg => trainEvents cfg o

/-- A concrete run configuration with masking disabled and every option at
its default (used as a concrete input below). -/
def cfgNoMask : Config :=
  { output_folder := "experiments"
    map_size := "4"
    load_path := none
    seed := 42
    total_timesteps := 1500000
    eval_freq := 10000
    eval_episodes := 10
    torch_deterministic := true
    entropy_coef := 1 / 100
    mask := false
    use_wandb := false }

/-- A concrete run configuration that restores from a checkpoint (used as
a concrete input below). -/
def cfgLoad : Config :=
  { cfgNoMask with load_path := some ("checkpoint.zip") }

/-- Concrete raw CLI input: map size 4, every option left absent. -/
def rawDefault4 : RawArgs :=
  { output_folder := "experiments", map_size := "4" }

/-- Concrete raw CLI input: valid map size but a negative timestep
budget. -/
def rawNegTimesteps : RawArgs :=
  { output_folder := "experiments", map_size := "4",
    total_timesteps := some (-1) }

/-- Concrete raw CLI input with the unsupported map size 7. -/
def rawMap7 : RawArgs :=
  { output_folder := "experiments", map_size := "7" }



/-- Claim C1 counterexample: with masking disabled (`cfgNoMask.mask =
false`), both vectors are nonetheless built with `wrapper_class =
get_wrapper`, i.e. the action-masking adapter is applied. -/
theorem mask_adapter_disabled_cex :
    cfgNoMask.mask = false ∧
    (buildTrainEnv cfgNoMask).wrapper_class = some WrapperClass.getWrapper ∧
    (buildEvalEnv cfgNoMask).wrapper_class = some WrapperClass.getWrapper :=
  ⟨rfl, rfl, rfl⟩

/-- Claim C1 (amended): the action-masking adapter is applied to every
training and evaluation instance unconditionally, regardless of the
masking flag, and the adapter sources its per-step mask from the wrapped
instance's `action_mask` attribute. -/
theorem mask_adapter_always_applied (cfg : Config) :
    (buildTrainEnv cfg).wrapper_class = some WrapperClass.getWrapper ∧
    (buildEvalEnv cfg).wrapper_class = some WrapperClass.getWrapper ∧
    ∀ e : RawEnv, (get_wrapper e).action_masks = e.action_mask :=
  ⟨rfl, rfl, fun _ => rfl⟩

/-- Claim C2 counterexample: a CLI invocation with the supported map size
4 but a negative `--total-timesteps` resolves successfully; no
`InvalidArgument` failure occurs for non-positive numeric options. -/
theorem nonpositive_option_accepted_cex :
    rawNegTimesteps.total_timesteps = some (-1) ∧
    (resolveConfig rawNegTimesteps).isOk = true :=
  ⟨rfl, rfl⟩

/-- Claim C2 (amended): configuration resolution fails with
`InvalidArgument` at parse time, before the train body runs, exactly when
the map size is outside the supported enumeration; numeric options are
never validated for positivity. -/
theorem invalid_map_size_rejected (raw : RawArgs) (o : LearnOutcome) :
    main raw o = Except.error ParseError.InvalidArgument ↔
      mapSizeChoices.contains raw.map_size = false := by
  by_cases h : raw.map_size ∈ mapSizeChoices <;>
    simp [main, resolveConfig, h, Except.map, List.contains, List.elem_eq_mem]

/-- Claim C3: the algorithm variant selector is total over the masking
flag and returns the mask-aware pair for `true`, the mask-naive pair for
`false`, and never a mismatched pair. -/
theorem variant_selector_matched :
    selectVariant true = (AlgClass.MaskablePPO, EvalCallbackClass.MaskableEvalCallback) ∧
    selectVariant false = (AlgClass.PPO, EvalCallbackClass.EvalCallback) ∧
    ∀ m : Bool, (selectVariant m).1.maskAware = m ∧ (selectVariant m).2.maskAware = m := by
  refine ⟨rfl, rfl, ?_⟩
  intro m
  cases m <;> exact ⟨rfl, rfl⟩

/-- Claim C4 counterexample: when the learn call errors, the training
environment is not closed, and even on natural completion the evaluation
environment is never closed. -/
theorem teardown_missing_cex :
    (trainEvents cfgNoMask LearnOutcome.errored).contains Event.closeTrainEnv = false ∧
    (trainEvents cfgNoMask LearnOutcome.completed).contains Event.closeEvalEnv = false :=
  ⟨rfl, rfl⟩

/-- Claim C4 (amended): only the training environment handle is released,
only on the natural-completion path, immediately after the final save; the
evaluation handle is never released, and the error and interrupt paths
release nothing. -/
theorem teardown_actual (cfg : Config) (o : LearnOutcome) :
    (trainEvents cfg o).contains Event.closeEvalEnv = false ∧
    ((trainEvents cfg o).contains Event.closeTrainEnv = true ↔ o = LearnOutcome.completed) ∧
    (trainEvents cfg LearnOutcome.completed).indexOf Event.saveModel + 1 =
      (trainEvents cfg LearnOutcome.completed).indexOf Event.closeTrainEnv := by
  cases hw : cfg.use_wandb <;> cases hl : cfg.load_path.isSome <;> cases o <;>
    (simp only [trainEvents, hw, hl]; decide)

/-- Claim C5: the learning-rate schedule returns 2.5e-4 (= 25/100000) at
fraction remaining 1, returns 0 at fraction remaining 0, and is monotone
in the fraction remaining (hence non-increasing as it decreases). -/
theorem lr_schedule_spec :
    lr 1 = 25 / 100000 ∧ lr 0 = 0 ∧ ∀ p q : ℚ, p ≤ q → lr p ≤ lr q := by
  refine ⟨by norm_num [lr, learning_rate], by norm_num [lr], ?_⟩
  intro p q h
  exact mul_le_mul_of_nonneg_right h (by norm_num [learning_rate])

/-- Claim C5 witness: the schedule evaluated at concrete fractions. -/
theorem lr_schedule_spec_witness :
    (1 : ℚ) / 2 ≤ 1 ∧ lr (1 / 2) ≤ lr 1 :=
  ⟨by norm_num, lr_schedule_spec.2.2 (1 / 2) 1 (by norm_num)⟩

/-- Claim C6: the evaluation callback's cadence is the configured
evaluation frequency floor-divided by the training instance count (16),
clamped below at 1. -/
theorem eval_callback_cadence (cfg : Config) :
    (buildEvalCallback cfg).eval_freq = max (Int.fdiv cfg.eval_freq 16) 1 ∧
    1 ≤ (buildEvalCallback cfg).eval_freq :=
  ⟨rfl, le_max_right _ _⟩

/-- Claim C6 witness: cadence at the default frequency 10000 is 625. -/
theorem eval_callback_cadence_witness :
    (buildEvalCallback cfgNoMask).eval_freq = max (Int.fdiv 10000 16) 1 ∧
    (buildEvalCallback cfgNoMask).eval_freq = 625 :=
  ⟨(eval_callback_cadence cfgNoMask).1, by decide⟩

/-- Claim C7: with map size 4, no load path and every option absent,
resolution succeeds and yields total_timesteps 1500000, eval_freq 10000,
eval_episodes 10, seed 42, masking disabled and tracking disabled. -/
theorem default_config_map4 :
    resolveConfig rawDefault4 = Except.ok cfgNoMask ∧
    cfgNoMask.load_path = none ∧
    cfgNoMask.total_timesteps = 1500000 ∧
    cfgNoMask.eval_freq = 10000 ∧
    cfgNoMask.eval_episodes = 10 ∧
    cfgNoMask.seed = 42 ∧
    cfgNoMask.mask = false ∧
    cfgNoMask.use_wandb = false := by
  refine ⟨?_, rfl, rfl, rfl, rfl, rfl, rfl, rfl⟩
  simp [resolveConfig, rawDefault4, mapSizeChoices, cfgNoMask, Defaults.TOTAL_TIMESTEPS,
    Defaults.EVAL_FREQ, Defaults.EVAL_EPISODES, Defaults.SEED, Defaults.ENTROPY_COEF]

/-- Claim C8 counterexample: a run restoring from a checkpoint is
constructed with no tensorboard log destination at all, so its training
logs are not written under the run-timestamp path. -/
theorem tensorboard_log_load_cex :
    cfgLoad.load_path = some ("checkpoint.zip") ∧
    tensorboardLogOf cfgLoad ("2024-01-01T00:00:00") = none :=
  ⟨rfl, rfl⟩

/-- Claim C8 (amended): the final checkpoint is always written under
`output_folder/NxN/models/timestring`, and for fresh-construction runs (no
load path) the tensorboard logs are configured under
`output_folder/NxN/runs/timestring`, with the single timestring captured
at startup used for both. -/
theorem persisted_paths (cfg : Config) (ts : String) :
    modelSavePath cfg ts =
      cfg.output_folder ++ "/" ++ (cfg.map_size ++ "x" ++ cfg.map_size) ++ "/" ++
        ("models/" ++ ts) ∧
    (cfg.load_path = none →
      tensorboardLogOf cfg ts =
        some (cfg.output_folder ++ "/" ++ (cfg.map_size ++ "x" ++ cfg.map_size) ++ "/" ++
          ("runs/" ++ ts))) := by
  refine ⟨rfl, ?_⟩
  intro h
  simp [tensorboardLogOf, h, base_output, map_dims]

/-- Claim C8 witness: the amended path layout at a concrete fresh run. -/
theorem persisted_paths_witness :
    cfgNoMask.load_path = none ∧
    tensorboardLogOf cfgNoMask ("2024-01-01T00:00:00") =
      some ("experiments" ++ "/" ++ ("4" ++ "x" ++ "4") ++ "/" ++
        ("runs/" ++ "2024-01-01T00:00:00")) :=
  ⟨rfl, (persisted_paths cfgNoMask ("2024-01-01T00:00:00")).2 rfl⟩

/-- Claim C9: the training and evaluation vectors share task identity and
masking configuration and differ only in instance count (16 vs 10) and
normalizer mode (both normalize observations and not rewards; the
evaluation normalizer is frozen). -/
theorem train_eval_env_consistency (cfg : Config) :
    (buildTrainEnv cfg).env_id = (buildEvalEnv cfg).env_id ∧
    (buildTrainEnv cfg).wrapper_class = (buildEvalEnv cfg).wrapper_class ∧
    (buildTrainEnv cfg).norm_obs = true ∧
    (buildEvalEnv cfg).norm_obs = true ∧
    (buildTrainEnv cfg).norm_reward = false ∧
    (buildEvalEnv cfg).norm_reward = false ∧
    (buildTrainEnv cfg).norm_training = true ∧
    (buildEvalEnv cfg).norm_training = false ∧
    (buildTrainEnv cfg).n_envs = 16 ∧
    (buildEvalEnv cfg).n_envs = 10 :=
  ⟨rfl, rfl, rfl, rfl, rfl, rfl, rfl, rfl, rfl, rfl⟩

/-- Claim C10: on natural completion the training environment handle is
closed exactly once, and the evaluation environment handle is closed on no
path at all. -/
theorem close_train_once_eval_never (cfg : Config) :
    (trainEvents cfg LearnOutcome.completed).count Event.closeTrainEnv = 1 ∧
    ∀ o, (trainEvents cfg o).contains Event.closeEvalEnv = false := by
  constructor
  · cases hw : cfg.use_wandb <;> cases hl : cfg.load_path.isSome <;>
      (simp only [trainEvents, hw, hl]; decide)
  · intro o
    cases hw : cfg.use_wandb <;> cases hl : cfg.load_path.isSome <;> cases o <;>
      (simp only [trainEvents, hw, hl]; decide)

end TrainPPO
